import Mathlib

/-!
Verification of the p2p handshake module (`src/p2p/src/io/handshake.rs`).

The module implements two futures-style state machines (initiator and
responder) plus a pure version-negotiation function.  We embed the data
model shallowly: streams and magic values are opaque naturals, messages
carry a magic and a payload, and each in-flight `ReadMessage` /
`WriteMessage` future is represented by the stream it owns together with
the request it was built from.  A `poll` call is driven by a list of
`Event`s: one event per poll of the underlying future (`Event.notReady`,
`Event.ioError e`, or `Event.ready m` for completion; write futures ignore
the message component, as the source ignores the yielded message of
`write_message`).  The internal re-poll after a completed step (the
`Async::NotReady => self.poll()` line of the source) is modelled by
recursing on the remaining events within the same `poll` call.  A `panic!`
(polling a finished machine, or a missing captured version) is modelled by
the distinguished outcome `PollOutcome.panicked`.
-/

/-- A peer version announcement: the numeric protocol version plus opaque
peer metadata (the other fields of the source `Version`, irrelevant here). -/
structure Version where
  version : Nat
  meta : Nat
deriving DecidableEq, Repr

/-- The network magic tag. -/
abbrev Magic := Nat

/-- An opaque byte stream, identified by a token; it is moved, never copied. -/
abbrev Strm := Nat

/-- Message payload: a version announcement, an acknowledgment, or any of the
open set of other message kinds (rejected during handshake). -/
inductive Payload where
  | version (v : Version)
  | verack
  | other (kind : Nat)
deriving DecidableEq, Repr

/-- One framed protocol message: network magic plus payload. -/
structure Message where
  magic : Magic
  payload : Payload
deriving DecidableEq, Repr

/-- `Message::new` of the source. -/
def Message.new (magic : Magic) (payload : Payload) : Message :=
  { magic := magic, payload := payload }

/-- The io error type: a failed handshake, or a transport/decode failure
propagated from the framing layer (identified by an opaque code). -/
inductive Error where
  | handshakeFailed
  | transport (code : Nat)
deriving DecidableEq, Repr

/-- `negotiate_version` of the source: `Ok(cmp::min(local, other))`.
The source carries a TODO to return `Err` for unsupported versions,
but as written it always succeeds. -/
def negotiate_version (loc other : Nat) : Except Error Nat :=
  Except.ok (min loc other)

/-- `HandshakeResult`: the remote version and the negotiated version number. -/
structure HandshakeResult where
  version : Version
  negotiated_version : Nat
deriving DecidableEq, Repr

/-- `version_message` of the source. -/
def version_message (magic : Magic) (version : Version) : Message :=
  Message.new magic (Payload.version version)

/-- `verack_message` of the source. -/
def verack_message (magic : Magic) : Message :=
  Message.new magic Payload.verack

/-- An in-flight `WriteMessage` future: owns the stream, writing `message`. -/
structure WriteMessageF where
  stream : Strm
  message : Message
deriving DecidableEq, Repr

/-- An in-flight `ReadMessage` future: owns the stream, expecting `magic`. -/
structure ReadMessageF where
  stream : Strm
  magic : Magic
  minPayload : Nat
deriving DecidableEq, Repr

/-- `write_message` of the io layer: construct the write future. -/
def write_message (a : Strm) (message : Message) : WriteMessageF :=
  { stream := a, message := message }

/-- `read_message` of the io layer: construct the read future. -/
def read_message (a : Strm) (magic : Magic) (minPayload : Nat) : ReadMessageF :=
  { stream := a, magic := magic, minPayload := minPayload }

/-- `HandshakeState` of the source (initiator machine). -/
inductive HandshakeState where
  | sendVersion (future : WriteMessageF)
  | receiveVersion (future : ReadMessageF)
  | receiveVerack (version : Option Version) (future : ReadMessageF)
  | finished
deriving DecidableEq, Repr

/-- `AcceptHandshakeState` of the source (responder machine). -/
inductive AcceptHandshakeState where
  | receiveVersion (local_version : Option Version) (future : ReadMessageF)
  | sendVersion (version : Option Version) (future : WriteMessageF)
  | sendVerack (version : Option Version) (future : WriteMessageF)
  | finished
deriving DecidableEq, Repr

/-- The initiator machine `Handshake<A>`. -/
structure Handshake where
  state : HandshakeState
  magic : Magic
  version : Nat
deriving DecidableEq, Repr

/-- The responder machine `AcceptHandshake<A>`. -/
structure AcceptHandshake where
  state : AcceptHandshakeState
  magic : Magic
  version : Nat
deriving DecidableEq, Repr

/-- `handshake` of the source: construct the initiator machine. -/
def handshake (a : Strm) (magic : Magic) (version : Version) : Handshake :=
  { version := version.version,
    state := HandshakeState.sendVersion (write_message a (version_message magic version)),
    magic := magic }

/-- `accept_handshake` of the source: construct the responder machine. -/
def accept_handshake (a : Strm) (magic : Magic) (version : Version) : AcceptHandshake :=
  { version := version.version,
    state := AcceptHandshakeState.receiveVersion (some version) (read_message a magic 0),
    magic := magic }

/-- Outcome of one poll of the underlying in-flight future. -/
inductive Event where
  | notReady
  | ioError (e : Error)
  | ready (message : Message)
deriving DecidableEq, Repr

/-- Result of polling a handshake machine: pending, completed with the
stream and result, failed with an error, or a `panic!`. -/
inductive PollOutcome where
  | notReady
  | ready (stream : Strm) (result : HandshakeResult)
  | error (e : Error)
  | panicked
deriving DecidableEq, Repr

/-- `Handshake::poll` of the source.  Each event is the outcome of one poll
of the current in-flight future; `try_ready!` returning `NotReady` or `Err`
is the first two arms of each step, and the internal
`Async::NotReady => self.poll()` re-poll is the recursion on `rest`.
An empty event list means the in-flight future stays pending. -/
def Handshake.poll : Handshake → List Event → PollOutcome × Handshake
  | hs, [] =>
    match hs.state with
    | HandshakeState.finished => (PollOutcome.panicked, hs)
    | _ => (PollOutcome.notReady, hs)
  | hs, e :: rest =>
    match hs.state with
    | HandshakeState.sendVersion f =>
      match e with
      | Event.notReady => (PollOutcome.notReady, hs)
      | Event.ioError err => (PollOutcome.error err, hs)
      | Event.ready _ =>
        let next := HandshakeState.receiveVersion (read_message f.stream hs.magic 0)
        Handshake.poll { hs with state := next } rest
    | HandshakeState.receiveVersion f =>
      match e with
      | Event.notReady => (PollOutcome.notReady, hs)
      | Event.ioError err => (PollOutcome.error err, hs)
      | Event.ready message =>
        match message.payload with
        | Payload.version version =>
          let next := HandshakeState.receiveVerack (some version)
            (read_message f.stream hs.magic 0)
          Handshake.poll { hs with state := next } rest
        | _ => (PollOutcome.error Error.handshakeFailed, hs)
    | HandshakeState.receiveVerack version f =>
      match e with
      | Event.notReady => (PollOutcome.notReady, hs)
      | Event.ioError err => (PollOutcome.error err, hs)
      | Event.ready message =>
        if message.payload ≠ Payload.verack then
          (PollOutcome.error Error.handshakeFailed, hs)
        else
          match version with
          | none => (PollOutcome.panicked, hs)
          | some version =>
            match negotiate_version hs.version version.version with
            | Except.error err =>
              (PollOutcome.error err,
               { hs with state := HandshakeState.receiveVerack none f })
            | Except.ok negotiated =>
              (PollOutcome.ready f.stream
                 { version := version, negotiated_version := negotiated },
               { hs with state := HandshakeState.finished })
    | HandshakeState.finished => (PollOutcome.panicked, hs)

/-- `AcceptHandshake::poll` of the source, modelled as `Handshake.poll`. -/
def AcceptHandshake.poll : AcceptHandshake → List Event → PollOutcome × AcceptHandshake
  | hs, [] =>
    match hs.state with
    | AcceptHandshakeState.finished => (PollOutcome.panicked, hs)
    | _ => (PollOutcome.notReady, hs)
  | hs, e :: rest =>
    match hs.state with
    | AcceptHandshakeState.receiveVersion local_version f =>
      match e with
      | Event.notReady => (PollOutcome.notReady, hs)
      | Event.ioError err => (PollOutcome.error err, hs)
      | Event.ready message =>
        match message.payload with
        | Payload.version version =>
          match local_version with
          | none => (PollOutcome.panicked, hs)
          | some lv =>
            let next := AcceptHandshakeState.sendVersion (some version)
              (write_message f.stream (version_message hs.magic lv))
            AcceptHandshake.poll { hs with state := next } rest
        | _ => (PollOutcome.error Error.handshakeFailed, hs)
    | AcceptHandshakeState.sendVersion version f =>
      match e with
      | Event.notReady => (PollOutcome.notReady, hs)
      | Event.ioError err => (PollOutcome.error err, hs)
      | Event.ready _ =>
        let next := AcceptHandshakeState.sendVerack version
          (write_message f.stream (verack_message hs.magic))
        AcceptHandshake.poll { hs with state := next } rest
    | AcceptHandshakeState.sendVerack version f =>
      match e with
      | Event.notReady => (PollOutcome.notReady, hs)
      | Event.ioError err => (PollOutcome.error err, hs)
      | Event.ready _ =>
        match version with
        | none => (PollOutcome.panicked, hs)
        | some version =>
          match negotiate_version hs.version version.version with
          | Except.error err =>
            (PollOutcome.error err,
             { hs with state := AcceptHandshakeState.sendVerack none f })
          | Except.ok negotiated =>
            (PollOutcome.ready f.stream
               { version := version, negotiated_version := negotiated },
             { hs with state := AcceptHandshakeState.finished })
    | AcceptHandshakeState.finished => (PollOutcome.panicked, hs)

/-- Rank of a responder step in the fixed forward sequence
receiveVersion → sendVersion → sendVerack → finished. -/
def AcceptHandshakeState.rank : AcceptHandshakeState → Nat
  | AcceptHandshakeState.receiveVersion _ _ => 0
  | AcceptHandshakeState.sendVersion _ _ => 1
  | AcceptHandshakeState.sendVerack _ _ => 2
  | AcceptHandshakeState.finished => 3

/-- Helper: one call of `AcceptHandshake.poll` never moves the responder
machine to a step of lower rank, for any sequence of underlying events. -/
theorem accept_poll_rank_le (hs : AcceptHandshake) (events : List Event) :
    hs.state.rank ≤ ((hs.poll events).2).state.rank := by
  induction events generalizing hs with
  | nil =>
    obtain ⟨st, magic, ver⟩ := hs
    cases st <;> simp [AcceptHandshake.poll]
  | cons e rest ih =>
    obtain ⟨st, magic, ver⟩ := hs
    cases st with
    | receiveVersion lv f =>
      cases e with
      | notReady => simp [AcceptHandshake.poll]
      | ioError err => simp [AcceptHandshake.poll]
      | ready m =>
        cases hp : m.payload with
        | version w =>
          cases lv with
          | none => simp [AcceptHandshake.poll, hp]
          | some lv =>
            simp only [AcceptHandshake.poll, hp, AcceptHandshakeState.rank]
            exact Nat.zero_le _
        | verack => simp [AcceptHandshake.poll, hp]
        | other k => simp [AcceptHandshake.poll, hp]
    | sendVersion ver2 f =>
      cases e with
      | notReady => simp [AcceptHandshake.poll]
      | ioError err => simp [AcceptHandshake.poll]
      | ready m =>
        simp only [AcceptHandshake.poll, AcceptHandshakeState.rank]
        exact le_trans (by simp [AcceptHandshakeState.rank]) (ih _)
    | sendVerack ver2 f =>
      cases e with
      | notReady => simp [AcceptHandshake.poll]
      | ioError err => simp [AcceptHandshake.poll]
      | ready m =>
        cases ver2 with
        | none => simp [AcceptHandshake.poll]
        | some _ => simp [AcceptHandshake.poll, negotiate_version, AcceptHandshakeState.rank]
    | finished => simp [AcceptHandshake.poll]

/-- C1: for every pair of version numbers, `negotiate_version` returns
`Ok(min(local, remote))` and never returns an error, so the
NegotiationFailure outcome is unreachable for every input. -/
theorem C1_negotiate_version_total_min (loc other : Nat) :
    negotiate_version loc other = Except.ok (min loc other) ∧
    ∀ e, negotiate_version loc other ≠ Except.error e := by
  refine ⟨rfl, ?_⟩
  intro e h
  simp [negotiate_version] at h

/-- C2: a successful initiator run (constructed by `handshake` with local
version `v`) whose ReceiveVersion step completes with remote version `rv`
and whose ReceiveVerack step completes with an acknowledgment yields
`Ready((stream, result))` with `result.version = rv` and
`result.negotiated_version = negotiate_version(v.version, rv.version)`,
and the machine transitions to Finished. -/
theorem C2_initiator_success_result (s : Strm) (magic : Magic) (v rv : Version)
    (m1 m2 m3 : Message)
    (h2 : m2.payload = Payload.version rv) (h3 : m3.payload = Payload.verack) :
    (handshake s magic v).poll [Event.ready m1, Event.ready m2, Event.ready m3] =
      (PollOutcome.ready s { version := rv, negotiated_version := min v.version rv.version },
       { state := HandshakeState.finished, magic := magic, version := v.version }) ∧
    negotiate_version v.version rv.version = Except.ok (min v.version rv.version) := by
  constructor
  · simp [handshake, Handshake.poll, h2, h3, negotiate_version, read_message, write_message]
  · rfl

/-- C2 witness: concrete successful initiator run. -/
theorem C2_initiator_success_result_witness :
    (handshake 1 7 ⟨5, 0⟩).poll
        [Event.ready (Message.new 7 (Payload.other 0)),
         Event.ready (Message.new 7 (Payload.version ⟨3, 1⟩)),
         Event.ready (Message.new 7 Payload.verack)] =
      (PollOutcome.ready 1 { version := ⟨3, 1⟩, negotiated_version := min 5 3 },
       { state := HandshakeState.finished, magic := 7, version := 5 }) ∧
    negotiate_version 5 3 = Except.ok (min 5 3) :=
  C2_initiator_success_result 1 7 ⟨5, 0⟩ ⟨3, 1⟩ (Message.new 7 (Payload.other 0))
    (Message.new 7 (Payload.version ⟨3, 1⟩)) (Message.new 7 Payload.verack) rfl rfl

/-- C3: an initiator machine in the ReceiveVersion step whose read completes
with a payload that is not a version announcement returns the
`HandshakeFailed` error (state unchanged, so the outcome is an error and
never a `HandshakeResult`). -/
theorem C3_initiator_receive_version_mismatch (hs : Handshake) (f : ReadMessageF)
    (m : Message) (rest : List Event)
    (hstate : hs.state = HandshakeState.receiveVersion f)
    (hm : ∀ w, m.payload ≠ Payload.version w) :
    hs.poll (Event.ready m :: rest) = (PollOutcome.error Error.handshakeFailed, hs) := by
  obtain ⟨st, magic, ver⟩ := hs
  simp only at hstate
  subst hstate
  cases hp : m.payload with
  | version w => exact absurd hp (hm w)
  | verack => simp [Handshake.poll, hp]
  | other k => simp [Handshake.poll, hp]

/-- C3 witness: concrete mismatch at the ReceiveVersion step. -/
theorem C3_initiator_receive_version_mismatch_witness :
    Handshake.poll
        { state := HandshakeState.receiveVersion (read_message 1 7 0), magic := 7, version := 5 }
        [Event.ready (Message.new 7 (Payload.other 2))] =
      (PollOutcome.error Error.handshakeFailed,
       { state := HandshakeState.receiveVersion (read_message 1 7 0), magic := 7, version := 5 }) :=
  C3_initiator_receive_version_mismatch
    { state := HandshakeState.receiveVersion (read_message 1 7 0), magic := 7, version := 5 }
    (read_message 1 7 0) (Message.new 7 (Payload.other 2)) [] rfl
    (fun _ h => Payload.noConfusion h)

/-- C4: an initiator run that first receives a valid version announcement and
then a second message that is not an acknowledgment fails with
`HandshakeFailed` from the ReceiveVerack step: the machine state at failure
is the ReceiveVerack step with the remote version already captured, so the
version step succeeded and the failure is not from the ReceiveVersion step. -/
theorem C4_initiator_verack_mismatch_after_version (s : Strm) (magic : Magic)
    (v rv : Version) (m1 m2 m3 : Message)
    (h2 : m2.payload = Payload.version rv) (h3 : m3.payload ≠ Payload.verack) :
    (handshake s magic v).poll [Event.ready m1, Event.ready m2, Event.ready m3] =
      (PollOutcome.error Error.handshakeFailed,
       { state := HandshakeState.receiveVerack (some rv) (read_message s magic 0),
         magic := magic, version := v.version }) := by
  simp [handshake, Handshake.poll, h2, h3, read_message, write_message]

/-- C4 witness: concrete run failing at the ReceiveVerack step. -/
theorem C4_initiator_verack_mismatch_after_version_witness :
    (handshake 1 7 ⟨5, 0⟩).poll
        [Event.ready (Message.new 7 (Payload.other 0)),
         Event.ready (Message.new 7 (Payload.version ⟨3, 1⟩)),
         Event.ready (Message.new 7 (Payload.other 4))] =
      (PollOutcome.error Error.handshakeFailed,
       { state := HandshakeState.receiveVerack (some ⟨3, 1⟩) (read_message 1 7 0),
         magic := 7, version := 5 }) :=
  C4_initiator_verack_mismatch_after_version 1 7 ⟨5, 0⟩ ⟨3, 1⟩
    (Message.new 7 (Payload.other 0)) (Message.new 7 (Payload.version ⟨3, 1⟩))
    (Message.new 7 (Payload.other 4)) rfl (fun h => Payload.noConfusion h)

/-- C5: the responder machine constructed by `accept_handshake`, in its first
step: a completed read whose payload is not a version announcement returns
`HandshakeFailed` with the state unchanged; a version announcement captures
the remote version and carries the caller-supplied local version forward
into the SendVersion step (as the payload of the write it issues). -/
theorem C5_responder_receive_version_step (s : Strm) (magic : Magic)
    (v rv : Version) (m : Message) :
    ((∀ w, m.payload ≠ Payload.version w) →
      (accept_handshake s magic v).poll [Event.ready m] =
        (PollOutcome.error Error.handshakeFailed, accept_handshake s magic v)) ∧
    (m.payload = Payload.version rv →
      (accept_handshake s magic v).poll [Event.ready m] =
        (PollOutcome.notReady,
         { state := AcceptHandshakeState.sendVersion (some rv) (write_message s (version_message magic v)),
           magic := magic, version := v.version })) := by
  constructor
  · intro hm
    cases hp : m.payload with
    | version w => exact absurd hp (hm w)
    | verack => simp [accept_handshake, AcceptHandshake.poll, hp, read_message]
    | other k => simp [accept_handshake, AcceptHandshake.poll, hp, read_message]
  · intro hm
    simp [accept_handshake, AcceptHandshake.poll, hm, read_message, write_message]

/-- C5 witness: concrete mismatch and concrete capture at the first
responder step. -/
theorem C5_responder_receive_version_step_witness :
    (accept_handshake 2 7 ⟨5, 0⟩).poll [Event.ready (Message.new 7 (Payload.other 3))] =
      (PollOutcome.error Error.handshakeFailed, accept_handshake 2 7 ⟨5, 0⟩) ∧
    (accept_handshake 2 7 ⟨5, 0⟩).poll [Event.ready (Message.new 7 (Payload.version ⟨3, 1⟩))] =
      (PollOutcome.notReady,
       { state := AcceptHandshakeState.sendVersion (some ⟨3, 1⟩) (write_message 2 (version_message 7 ⟨5, 0⟩)),
         magic := 7, version := 5 }) :=
  ⟨(C5_responder_receive_version_step 2 7 ⟨5, 0⟩ ⟨3, 1⟩
      (Message.new 7 (Payload.other 3))).1 (fun _ h => Payload.noConfusion h),
   (C5_responder_receive_version_step 2 7 ⟨5, 0⟩ ⟨3, 1⟩
      (Message.new 7 (Payload.version ⟨3, 1⟩))).2 rfl⟩

/-- C6: the responder machine advances strictly forward through the fixed
sequence receiveVersion, sendVersion, sendVerack, finished (the step rank
never decreases under any poll, so no prior step is ever revisited), and a
full successful run yields `Ready((stream, result))` at the completion of
SendVerack with `result.version` the remote version captured at the
ReceiveVersion step, `result.negotiated_version` computed by
`negotiate_version`, and the machine transitioned to Finished. -/
theorem C6_responder_forward_progress :
    (∀ (hs : AcceptHandshake) (events : List Event),
        hs.state.rank ≤ ((hs.poll events).2).state.rank) ∧
    (∀ (s : Strm) (magic : Magic) (v rv : Version) (m1 m2 m3 : Message),
        m1.payload = Payload.version rv →
        (accept_handshake s magic v).poll [Event.ready m1, Event.ready m2, Event.ready m3] =
          (PollOutcome.ready s { version := rv, negotiated_version := min v.version rv.version },
           { state := AcceptHandshakeState.finished, magic := magic, version := v.version }) ∧
        negotiate_version v.version rv.version = Except.ok (min v.version rv.version)) := by
  refine ⟨accept_poll_rank_le, ?_⟩
  intro s magic v rv m1 m2 m3 h1
  constructor
  · simp [accept_handshake, AcceptHandshake.poll, h1, negotiate_version, read_message,
      write_message]
  · rfl

/-- C6 witness: rank monotonicity at a concrete machine and a concrete
successful responder run. -/
theorem C6_responder_forward_progress_witness :
    ((accept_handshake 2 7 ⟨5, 0⟩).state.rank ≤
        (((accept_handshake 2 7 ⟨5, 0⟩).poll []).2).state.rank) ∧
    ((accept_handshake 2 7 ⟨5, 0⟩).poll
        [Event.ready (Message.new 7 (Payload.version ⟨3, 1⟩)),
         Event.ready (Message.new 7 Payload.verack),
         Event.ready (Message.new 7 Payload.verack)] =
      (PollOutcome.ready 2 { version := ⟨3, 1⟩, negotiated_version := min 5 3 },
       { state := AcceptHandshakeState.finished, magic := 7, version := 5 }) ∧
    negotiate_version 5 3 = Except.ok (min 5 3)) :=
  ⟨C6_responder_forward_progress.1 (accept_handshake 2 7 ⟨5, 0⟩) [],
   C6_responder_forward_progress.2 2 7 ⟨5, 0⟩ ⟨3, 1⟩
     (Message.new 7 (Payload.version ⟨3, 1⟩)) (Message.new 7 Payload.verack)
     (Message.new 7 Payload.verack) rfl⟩

/-- C7: for every non-terminal state of either machine, a failure of the
underlying read or write is returned unchanged as the poll error, with the
machine state unchanged (no retry, no transformation, no result). -/
theorem C7_io_error_propagation :
    (∀ (hs : Handshake) (e : Error) (rest : List Event),
        hs.state ≠ HandshakeState.finished →
        hs.poll (Event.ioError e :: rest) = (PollOutcome.error e, hs)) ∧
    (∀ (hs : AcceptHandshake) (e : Error) (rest : List Event),
        hs.state ≠ AcceptHandshakeState.finished →
        hs.poll (Event.ioError e :: rest) = (PollOutcome.error e, hs)) := by
  constructor
  · intro hs e rest hne
    obtain ⟨st, magic, ver⟩ := hs
    cases st <;> simp_all [Handshake.poll]
  · intro hs e rest hne
    obtain ⟨st, magic, ver⟩ := hs
    cases st <;> simp_all [AcceptHandshake.poll]

/-- C7 witness: a concrete transport error surfaces unchanged from both
machines. -/
theorem C7_io_error_propagation_witness :
    (handshake 1 7 ⟨5, 0⟩).poll [Event.ioError (Error.transport 9)] =
      (PollOutcome.error (Error.transport 9), handshake 1 7 ⟨5, 0⟩) ∧
    (accept_handshake 2 7 ⟨5, 0⟩).poll [Event.ioError (Error.transport 9)] =
      (PollOutcome.error (Error.transport 9), accept_handshake 2 7 ⟨5, 0⟩) :=
  ⟨C7_io_error_propagation.1 (handshake 1 7 ⟨5, 0⟩) (Error.transport 9) [] (by decide),
   C7_io_error_propagation.2 (accept_handshake 2 7 ⟨5, 0⟩) (Error.transport 9) [] (by decide)⟩

/-- C8: for every non-terminal state of either machine, a pending underlying
operation makes poll return NotReady with the machine (step tag and carried
values) unchanged, so a later re-poll resumes from the same step; and every
completed step that has a next step continues as a poll of the advanced
machine on the remaining events within the same call: the SendVersion step
of the initiator, the ReceiveVersion step of the initiator on a valid
version payload, the ReceiveVersion step of the responder on a valid
version payload, and the SendVersion step of the responder (the remaining
steps, ReceiveVerack and SendVerack, complete the handshake and return the
result rather than chaining). -/
theorem C8_not_ready_frame_and_chaining :
    (∀ (hs : Handshake) (rest : List Event),
        hs.state ≠ HandshakeState.finished →
        hs.poll (Event.notReady :: rest) = (PollOutcome.notReady, hs)) ∧
    (∀ (hs : AcceptHandshake) (rest : List Event),
        hs.state ≠ AcceptHandshakeState.finished →
        hs.poll (Event.notReady :: rest) = (PollOutcome.notReady, hs)) ∧
    (∀ (hs : Handshake) (f : WriteMessageF) (m : Message) (rest : List Event),
        hs.state = HandshakeState.sendVersion f →
        hs.poll (Event.ready m :: rest) =
          Handshake.poll { hs with state := HandshakeState.receiveVersion (read_message f.stream hs.magic 0) } rest) ∧
    (∀ (hs : Handshake) (f : ReadMessageF) (m : Message) (w : Version) (rest : List Event),
        hs.state = HandshakeState.receiveVersion f →
        m.payload = Payload.version w →
        hs.poll (Event.ready m :: rest) =
          Handshake.poll { hs with state := HandshakeState.receiveVerack (some w) (read_message f.stream hs.magic 0) } rest) ∧
    (∀ (hs : AcceptHandshake) (lv : Version) (f : ReadMessageF) (m : Message) (w : Version)
        (rest : List Event),
        hs.state = AcceptHandshakeState.receiveVersion (some lv) f →
        m.payload = Payload.version w →
        hs.poll (Event.ready m :: rest) =
          AcceptHandshake.poll { hs with state := AcceptHandshakeState.sendVersion (some w) (write_message f.stream (version_message hs.magic lv)) } rest) ∧
    (∀ (hs : AcceptHandshake) (ver : Option Version) (f : WriteMessageF) (m : Message)
        (rest : List Event),
        hs.state = AcceptHandshakeState.sendVersion ver f →
        hs.poll (Event.ready m :: rest) =
          AcceptHandshake.poll { hs with state := AcceptHandshakeState.sendVerack ver (write_message f.stream (verack_message hs.magic)) } rest) := by
  refine ⟨?_, ?_, ?_, ?_, ?_, ?_⟩
  · intro hs rest hne
    obtain ⟨st, magic, ver⟩ := hs
    cases st <;> simp_all [Handshake.poll]
  · intro hs rest hne
    obtain ⟨st, magic, ver⟩ := hs
    cases st <;> simp_all [AcceptHandshake.poll]
  · intro hs f m rest hstate
    obtain ⟨st, magic, ver⟩ := hs
    simp only at hstate
    subst hstate
    simp [Handshake.poll]
  · intro hs f m w rest hstate hm
    obtain ⟨st, magic, ver⟩ := hs
    simp only at hstate
    subst hstate
    simp [Handshake.poll, hm]
  · intro hs lv f m w rest hstate hm
    obtain ⟨st, magic, ver⟩ := hs
    simp only at hstate
    subst hstate
    simp [AcceptHandshake.poll, hm]
  · intro hs ver2 f m rest hstate
    obtain ⟨st, magic, ver⟩ := hs
    simp only at hstate
    subst hstate
    simp [AcceptHandshake.poll]

/-- C8 witness: concrete NotReady frames and concrete same-call advances at
all four chaining steps. -/
theorem C8_not_ready_frame_and_chaining_witness :
    (handshake 1 7 ⟨5, 0⟩).poll [Event.notReady] =
      (PollOutcome.notReady, handshake 1 7 ⟨5, 0⟩) ∧
    (accept_handshake 2 7 ⟨5, 0⟩).poll [Event.notReady] =
      (PollOutcome.notReady, accept_handshake 2 7 ⟨5, 0⟩) ∧
    (handshake 1 7 ⟨5, 0⟩).poll [Event.ready (Message.new 7 Payload.verack)] =
      Handshake.poll { handshake 1 7 ⟨5, 0⟩ with state := HandshakeState.receiveVersion (read_message 1 7 0) } [] ∧
    Handshake.poll
        { state := HandshakeState.receiveVersion (read_message 1 7 0), magic := 7, version := 5 }
        [Event.ready (Message.new 7 (Payload.version ⟨3, 1⟩))] =
      Handshake.poll
        { state := HandshakeState.receiveVerack (some ⟨3, 1⟩) (read_message 1 7 0), magic := 7, version := 5 } [] ∧
    (accept_handshake 2 7 ⟨5, 0⟩).poll [Event.ready (Message.new 7 (Payload.version ⟨3, 1⟩))] =
      AcceptHandshake.poll
        { accept_handshake 2 7 ⟨5, 0⟩ with state := AcceptHandshakeState.sendVersion (some ⟨3, 1⟩) (write_message 2 (version_message 7 ⟨5, 0⟩)) } [] ∧
    AcceptHandshake.poll
        { state := AcceptHandshakeState.sendVersion (some ⟨3, 1⟩) (write_message 2 (version_message 7 ⟨5, 0⟩)), magic := 7, version := 5 }
        [Event.ready (Message.new 7 Payload.verack)] =
      AcceptHandshake.poll
        { state := AcceptHandshakeState.sendVerack (some ⟨3, 1⟩) (write_message 2 (verack_message 7)), magic := 7, version := 5 } [] :=
  ⟨C8_not_ready_frame_and_chaining.1 (handshake 1 7 ⟨5, 0⟩) [] (by decide),
   C8_not_ready_frame_and_chaining.2.1 (accept_handshake 2 7 ⟨5, 0⟩) [] (by decide),
   C8_not_ready_frame_and_chaining.2.2.1 (handshake 1 7 ⟨5, 0⟩)
     (write_message 1 (version_message 7 ⟨5, 0⟩)) (Message.new 7 Payload.verack) [] rfl,
   C8_not_ready_frame_and_chaining.2.2.2.1
     { state := HandshakeState.receiveVersion (read_message 1 7 0), magic := 7, version := 5 }
     (read_message 1 7 0) (Message.new 7 (Payload.version ⟨3, 1⟩)) ⟨3, 1⟩ [] rfl rfl,
   C8_not_ready_frame_and_chaining.2.2.2.2.1 (accept_handshake 2 7 ⟨5, 0⟩) ⟨5, 0⟩
     (read_message 2 7 0) (Message.new 7 (Payload.version ⟨3, 1⟩)) ⟨3, 1⟩ [] rfl rfl,
   C8_not_ready_frame_and_chaining.2.2.2.2.2
     { state := AcceptHandshakeState.sendVersion (some ⟨3, 1⟩) (write_message 2 (version_message 7 ⟨5, 0⟩)), magic := 7, version := 5 }
     (some ⟨3, 1⟩) (write_message 2 (version_message 7 ⟨5, 0⟩))
     (Message.new 7 Payload.verack) [] rfl⟩

/-- C9: polling a machine of either role whose state is Finished panics
deterministically (the outcome is the panic marker and the state does not
change), for every sequence of events: the final transition is never
repeated and no second HandshakeResult is produced. -/
theorem C9_poll_after_finished_panics :
    (∀ (hs : Handshake) (events : List Event),
        hs.state = HandshakeState.finished →
        hs.poll events = (PollOutcome.panicked, hs)) ∧
    (∀ (hs : AcceptHandshake) (events : List Event),
        hs.state = AcceptHandshakeState.finished →
        hs.poll events = (PollOutcome.panicked, hs)) := by
  constructor
  · intro hs events hstate
    obtain ⟨st, magic, ver⟩ := hs
    simp only at hstate
    subst hstate
    cases events <;> simp [Handshake.poll]
  · intro hs events hstate
    obtain ⟨st, magic, ver⟩ := hs
    simp only at hstate
    subst hstate
    cases events <;> simp [AcceptHandshake.poll]

/-- C9 witness: concrete finished machines panic when polled again. -/
theorem C9_poll_after_finished_panics_witness :
    Handshake.poll { state := HandshakeState.finished, magic := 7, version := 5 } [] =
      (PollOutcome.panicked, { state := HandshakeState.finished, magic := 7, version := 5 }) ∧
    AcceptHandshake.poll { state := AcceptHandshakeState.finished, magic := 7, version := 5 } [] =
      (PollOutcome.panicked, { state := AcceptHandshakeState.finished, magic := 7, version := 5 }) :=
  ⟨C9_poll_after_finished_panics.1
     { state := HandshakeState.finished, magic := 7, version := 5 } [] rfl,
   C9_poll_after_finished_panics.2
     { state := AcceptHandshakeState.finished, magic := 7, version := 5 } [] rfl⟩

/-- C10: `negotiate_version` is symmetric in its two arguments, and an
initiator and a responder negotiating over the same exchanged version
numbers compute the identical negotiated version on both sides of their
successful runs. -/
theorem C10_negotiate_version_symmetric :
    (∀ a b, negotiate_version a b = negotiate_version b a) ∧
    (∀ (sI sR : Strm) (magicI magicR : Magic) (vI vR : Version)
        (mA mB mC mD mE mF : Message),
        mB.payload = Payload.version vR →
        mC.payload = Payload.verack →
        mD.payload = Payload.version vI →
        ((handshake sI magicI vI).poll
            [Event.ready mA, Event.ready mB, Event.ready mC]).1 =
          PollOutcome.ready sI { version := vR, negotiated_version := min vI.version vR.version } ∧
        ((accept_handshake sR magicR vR).poll
            [Event.ready mD, Event.ready mE, Event.ready mF]).1 =
          PollOutcome.ready sR { version := vI, negotiated_version := min vI.version vR.version }) := by
  constructor
  · intro a b
    simp [negotiate_version, Nat.min_comm]
  · intro sI sR magicI magicR vI vR mA mB mC mD mE mF hB hC hD
    constructor
    · simp [handshake, Handshake.poll, hB, hC, negotiate_version, read_message, write_message]
    · simp [accept_handshake, AcceptHandshake.poll, hD, negotiate_version, read_message,
        write_message, Nat.min_comm]

/-- C10 witness: symmetry at concrete version numbers and a concrete
initiator/responder pair agreeing on the negotiated version. -/
theorem C10_negotiate_version_symmetric_witness :
    negotiate_version 5 3 = negotiate_version 3 5 ∧
    (((handshake 1 7 ⟨5, 0⟩).poll
        [Event.ready (Message.new 7 (Payload.other 0)),
         Event.ready (Message.new 7 (Payload.version ⟨3, 1⟩)),
         Event.ready (Message.new 7 Payload.verack)]).1 =
      PollOutcome.ready 1 { version := ⟨3, 1⟩, negotiated_version := min 5 3 } ∧
    ((accept_handshake 2 7 ⟨3, 1⟩).poll
        [Event.ready (Message.new 7 (Payload.version ⟨5, 0⟩)),
         Event.ready (Message.new 7 Payload.verack),
         Event.ready (Message.new 7 Payload.verack)]).1 =
      PollOutcome.ready 2 { version := ⟨5, 0⟩, negotiated_version := min 5 3 }) :=
  ⟨C10_negotiate_version_symmetric.1 5 3,
   C10_negotiate_version_symmetric.2 1 2 7 7 ⟨5, 0⟩ ⟨3, 1⟩
     (Message.new 7 (Payload.other 0)) (Message.new 7 (Payload.version ⟨3, 1⟩))
     (Message.new 7 Payload.verack) (Message.new 7 (Payload.version ⟨5, 0⟩))
     (Message.new 7 Payload.verack) (Message.new 7 Payload.verack) rfl rfl rfl⟩
